import Mathlib

/-!
Verification of the DevConnector authentication/authorization core:
a shallow embedding of the Express route handlers and the JWT auth
middleware, with theorems about token handling, ownership checks,
like/unlike behaviour and the experience/education delete routes.

Conventions of the embedding:
  - Mongo documents are Lean structures; the post store and the user
    store are Lean lists, looked up by id with the same predicate the
    code passes to mongoose.
  - JS runtime errors raised inside a handler try block (property
    access on null/undefined) live in an Except monad; the catch block
    of each handler converts them to the 500 response the code sends.
  - The callback passed to jwt.sign runs asynchronously, after the
    handler try/catch has already returned, so a throw inside it is
    modelled as an uncaught process-level exception, not as a caught
    handler error.
  - External collaborators (token codec, express-validator, gravatar,
    bcrypt outcomes, store-assigned ids) are parameters.
-/

namespace Devconnector

/-- Identity decoded from a token: the payload shape is `\x7b user: \x7b id \x7d \x7d`. -/
structure Identity where
  id : String
deriving Repr, DecidableEq

/-- Result of a successful `jwt.verify`: the decoded claim, whose `user`
field the middleware attaches to the request. -/
structure Decoded where
  user : Identity
deriving Repr, DecidableEq

/-- A user record as created by registration (models/User fields used by
the routes: name, email, password hash, avatar, store-assigned id). -/
structure UserRec where
  id : String
  name : String
  email : String
  password : String
  avatar : String
deriving Repr, DecidableEq

/-- One entry of a post `likes` array (models/Post.js): a user reference
and a display name. -/
structure Like where
  user : String
  name : String
deriving Repr, DecidableEq

/-- One entry of a post `comments` array (models/Post.js): subdocument id,
user reference, text, display name, avatar. -/
structure Comment where
  id : String
  user : String
  text : String
  name : String
  avatar : String
deriving Repr, DecidableEq

/-- A post document (models/Post.js): owner reference, text, denormalised
name/avatar, likes and comments arrays. -/
structure Post where
  id : String
  user : String
  text : String
  name : String
  avatar : String
  likes : List Like
  comments : List Comment
deriving Repr, DecidableEq

/-- An experience entry of a profile, with the fields the PUT route
copies from the request body plus the subdocument id. -/
structure ExpEntry where
  id : String
  title : String
  company : String
  location : String
  fromDate : String
  toDate : String
  current : Bool
  description : String
deriving Repr, DecidableEq

/-- An education entry of a profile, with the fields the PUT route
copies from the request body plus the subdocument id. -/
structure EduEntry where
  id : String
  school : String
  degree : String
  fieldofstudy : String
  fromDate : String
  toDate : String
  current : Bool
  description : String
deriving Repr, DecidableEq

/-- A profile document restricted to what the experience/education
routes read: the owning user reference and the two entry lists. -/
structure Profile where
  user : String
  experience : List ExpEntry
  education : List EduEntry
deriving Repr, DecidableEq

/-- The JSON bodies the handlers send. -/
inductive Body where
  | msg (s : String)
  | errors (msgs : List String)
  | token (t : String)
  | text (s : String)
  | post (p : Post)
  | likes (ls : List Like)
  | comments (cs : List Comment)
  | profile (p : Profile)
deriving Repr, DecidableEq

/-- An HTTP response: status code and body. -/
structure HttpResponse where
  status : Nat
  body : Body
deriving Repr, DecidableEq

/-- What a request produces: a response, or an exception that escaped
the handler and reached the event loop uncaught. -/
inductive Outcome where
  | response (r : HttpResponse)
  | crash (e : String)
deriving Repr, DecidableEq

/-- A JS runtime error raised inside a try block. -/
inductive JsError where
  | typeError (m : String)
deriving Repr, DecidableEq

/-- JS `Array.prototype.indexOf` on an array of strings, scanning from
position `i`: the first index holding `x`, and `-1` when `x` is absent. -/
def jsIndexOfAux (xs : List String) (x : String) (i : Nat) : Int :=
  match xs with
  | [] => -1
  | a :: as => if a == x then (i : Int) else jsIndexOfAux as x (i + 1)

/-- JS `Array.prototype.indexOf` on an array of strings: the first index
holding `x`, and `-1` when `x` is absent. -/
def jsIndexOf (xs : List String) (x : String) : Int :=
  jsIndexOfAux xs x 0

/-- JS `Array.prototype.splice(start, 1)`: a negative `start` counts from
the end of the array and is clamped at 0; one element is removed at the
resulting index (none when the index is past the end). -/
def jsSpliceRemoveOne {α : Type} (xs : List α) (start : Int) : List α :=
  let len : Int := xs.length
  let actual := (if start < 0 then max (len + start) 0 else min start len).toNat
  xs.take actual ++ xs.drop (actual + 1)

/-- JS `v.toString()` on a value that may be `undefined`: throws a
TypeError when the value is `undefined`. -/
def jsToString (v : Option String) : Except JsError String :=
  match v with
  | none => .error (.typeError "Cannot read properties of undefined")
  | some s => .ok s

/-! ## Auth middleware (middleware/auth.js) -/

/-- middleware/auth.js. The token is the `x-auth-token` header value
(`none` when the header is absent); `!token` is JS-falsy for an absent
header and for the empty string. `verify` is the token codec; on success
the decoded `user` is attached and the downstream handler `next` runs. -/
def authMiddleware (verify : String → Except String Decoded)
    (token : Option String) (next : Identity → Outcome) : Outcome :=
  match token with
  | none => .response ⟨401, .msg "No token, Authorization denied!"⟩
  | some t =>
    if t.isEmpty then
      .response ⟨401, .msg "No token, Authorization denied!"⟩
    else
      match verify t with
      | .error _ => .response ⟨401, .msg "Token is not valid!"⟩
      | .ok decoded => next decoded.user

/-! ## Posts routes (routes/api/posts.js) -/

/-- `Post.findById` against the post store: the spec collaborator
`findPostById(id)` returning the stored post with that id, if any. -/
def findPostById (store : List Post) (pid : String) : Option Post :=
  store.find? (fun p => p.id == pid)

/-- `post.save()`: persist the mutated document back into the store,
replacing the stored post with the same id. -/
def savePost (store : List Post) (p : Post) : List Post :=
  store.map (fun q => if q.id == p.id then p else q)

/-- `User.findById` against the user store. -/
def findUserById (users : List UserRec) (uid : String) : Option UserRec :=
  users.find? (fun u => u.id == uid)

/-- DELETE api/posts/:post_id — try block: load the post, 404 when it is
missing, 401 when the requester is not the owner, otherwise remove the
document and answer with the removal message. -/
def deletePostTry (store : List Post) (uid pid : String) :
    Except JsError (Outcome × List Post) :=
  match findPostById store pid with
  | none => .ok (.response ⟨404, .msg "Post not Found!"⟩, store)
  | some post =>
    if post.user ≠ uid then
      .ok (.response ⟨401, .msg "User not Authorized!"⟩, store)
    else
      .ok (.response ⟨200, .msg "Post Removed!"⟩,
        store.filter (fun q => !(q.id == post.id)))

/-- DELETE api/posts/:post_id with its catch block, which answers 500
on an uncaught try-block error. -/
def deletePostRoute (store : List Post) (uid pid : String) :
    Outcome × List Post :=
  match deletePostTry store uid pid with
  | .ok r => r
  | .error _ => (.response ⟨500, .text "Server Error!"⟩, store)

/-- `comment.idnpm`: the comment subdocument has no `idnpm` field, so
the property access evaluates to JS `undefined`. -/
def Comment.idnpm (_ : Comment) : Option String := none

/-- The callback array of `post.comments.map(c => c.idnpm.toString())`,
with JS semantics: the map is evaluated left to right and propagates the
first thrown TypeError. -/
def mapIdnpmToString : List Comment → Except JsError (List String)
  | [] => .ok []
  | c :: rest =>
    match jsToString c.idnpm with
    | .error e => .error e
    | .ok s =>
      match mapIdnpmToString rest with
      | .error e => .error e
      | .ok ss => .ok (s :: ss)

/-- DELETE api/posts/comment/:post_id/:comment_id — try block. When the
post id is missing, `post.comments` dereferences null and throws. After
the existence and ownership checks, the removal index is computed by
mapping `comment.idnpm.toString()` over the comments; `idnpm` is
`undefined`, so the map throws a TypeError on its first element. -/
def deleteCommentTry (store : List Post) (uid pid cid : String) :
    Except JsError (Outcome × List Post) :=
  match findPostById store pid with
  | none => .error (.typeError "Cannot read properties of null")
  | some post =>
    match post.comments.find? (fun c => c.id == cid) with
    | none => .ok (.response ⟨404, .msg "Comment does not exist!"⟩, store)
    | some comment =>
      if comment.user ≠ uid then
        .ok (.response ⟨401, .msg "User not Authorized!"⟩, store)
      else
        match mapIdnpmToString post.comments with
        | .error e => .error e
        | .ok ids =>
          let removeIndex := jsIndexOf ids cid
          let post' :=
            { post with comments := jsSpliceRemoveOne post.comments removeIndex }
          .ok (.response ⟨200, .comments post'.comments⟩, savePost store post')

/-- DELETE api/posts/comment/:post_id/:comment_id with its catch block,
which answers 500 on an uncaught try-block error. -/
def deleteCommentRoute (store : List Post) (uid pid cid : String) :
    Outcome × List Post :=
  match deleteCommentTry store uid pid cid with
  | .ok r => r
  | .error _ => (.response ⟨500, .text "Server Error!"⟩, store)

/-! ## Registration (routes/api/users.js, POST api/users) -/

/-- The registration request body. -/
structure RegisterBody where
  name : String
  email : String
  password : String
deriving Repr, DecidableEq

/-- Outcome of the asynchronous `jwt.sign` call: a token, or the error
handed to its callback. -/
inductive SignOutcome where
  | ok (token : String)
  | err (e : String)
deriving Repr, DecidableEq

/-- Outcomes of the collaborators the registration handler awaits:
whether bcrypt.genSalt and bcrypt.hash resolve, the hash value, whether
user.save resolves, the store-assigned id, and the `jwt.sign` outcome. -/
structure RegisterEnv where
  genSaltOk : Bool
  hashOk : Bool
  hashed : String
  saveOk : Bool
  newId : String
  sign : SignOutcome
deriving Repr, DecidableEq

/-- POST api/users. Validation failures answer 400 with the collaborator
error list; a duplicate email answers 400 User Already exists!; a
rejection of genSalt, hash or save is caught and answers 500 Server
Error. After a successful save the handler calls `jwt.sign` with a
callback; the callback runs asynchronously, after the try/catch has
returned, so its `throw e` on a signing error escapes the handler as an
uncaught exception, while on success it sends the token. -/
def registerRoute (users : List UserRec) (gravatar : String → String)
    (validationErrs : List String) (body : RegisterBody) (env : RegisterEnv) :
    Outcome × List UserRec :=
  if validationErrs ≠ [] then
    (.response ⟨400, .errors validationErrs⟩, users)
  else
    match users.find? (fun w => w.email == body.email) with
    | some _ => (.response ⟨400, .errors ["User Already exists!"]⟩, users)
    | none =>
      let avatar := gravatar body.email
      if ¬ env.genSaltOk then (.response ⟨500, .text "Server Error"⟩, users)
      else if ¬ env.hashOk then (.response ⟨500, .text "Server Error"⟩, users)
      else if ¬ env.saveOk then (.response ⟨500, .text "Server Error"⟩, users)
      else
        let user : UserRec := ⟨env.newId, body.name, body.email, env.hashed, avatar⟩
        let users' := users ++ [user]
        match env.sign with
        | .ok token => (.response ⟨200, .token token⟩, users')
        | .err e => (.crash e, users')

/-! ## Profile experience/education routes (routes/api/profile.js) -/

/-- `Profile.findOne(\x7b user \x7d)` against the profile store. -/
def findProfileByUserId (profiles : List Profile) (uid : String) :
    Option Profile :=
  profiles.find? (fun pr => pr.user == uid)

/-- `profile.save()`: persist the mutated profile back into the store,
replacing the stored profile of the same user. -/
def saveProfile (profiles : List Profile) (pr : Profile) : List Profile :=
  profiles.map (fun q => if q.user == pr.user then pr else q)

/-- DELETE api/profile/experience/:exp_id: load the profile of the
authenticated user (a null profile makes `profile.experience` throw,
which the catch turns into 500), compute the removal index of the entry
with the given id by indexOf — yielding -1 when the id is absent — and
splice one element at that index, then save and answer with the
profile. -/
def deleteExperienceRoute (profiles : List Profile) (uid xid : String) :
    Outcome × List Profile :=
  match findProfileByUserId profiles uid with
  | none => (.response ⟨500, .text "Server Error!"⟩, profiles)
  | some profile =>
    let removeIndex := jsIndexOf (profile.experience.map (fun xp => xp.id)) xid
    let profile' :=
      { profile with experience := jsSpliceRemoveOne profile.experience removeIndex }
    (.response ⟨200, .profile profile'⟩, saveProfile profiles profile')

/-- DELETE api/profile/education/:edu_id, structured exactly like the
experience deletion. -/
def deleteEducationRoute (profiles : List Profile) (uid eid : String) :
    Outcome × List Profile :=
  match findProfileByUserId profiles uid with
  | none => (.response ⟨500, .text "Server Error!"⟩, profiles)
  | some profile =>
    let removeIndex := jsIndexOf (profile.education.map (fun ed => ed.id)) eid
    let profile' :=
      { profile with education := jsSpliceRemoveOne profile.education removeIndex }
    (.response ⟨200, .profile profile'⟩, saveProfile profiles profile')

/-! ## Like, unlike, create-post and comment routes (routes/api/posts.js) -/

/-- The already-liked check of PUT api/posts/like/:post_id: the number of
entries of the likes array whose user reference equals the caller id. -/
def likeCount (p : Post) (uid : String) : Nat :=
  (p.likes.filter (fun like => like.user == uid)).length

/-- PUT api/posts/like/:post_id — try block. A missing post makes
`post.likes` dereference null and throw; an already-liked post answers
400; otherwise the new like is unshifted onto the front of the likes
array (a missing caller record makes `user.name` throw) and the post is
saved. -/
def likeTry (store : List Post) (users : List UserRec) (uid pid : String) :
    Except JsError (Outcome × List Post) :=
  match findPostById store pid with
  | none => .error (.typeError "Cannot read properties of null")
  | some post =>
    if 0 < likeCount post uid then
      .ok (.response ⟨400, .msg "Post already liked!"⟩, store)
    else
      match findUserById users uid with
      | none => .error (.typeError "Cannot read properties of null")
      | some user =>
        let post' := { post with likes := ⟨uid, user.name⟩ :: post.likes }
        .ok (.response ⟨200, .likes post'.likes⟩, savePost store post')

/-- PUT api/posts/like/:post_id with its catch block. -/
def likeRoute (store : List Post) (users : List UserRec) (uid pid : String) :
    Outcome × List Post :=
  match likeTry store users uid pid with
  | .ok r => r
  | .error _ => (.response ⟨500, .text "Server Error!"⟩, store)

/-- PUT api/posts/unlike/:post_id — try block. A missing post makes
`post.likes` throw; a post not liked by the caller answers 400;
otherwise the entry at the indexOf position of the caller id in the
mapped user references is spliced out and the post is saved. -/
def unlikeTry (store : List Post) (uid pid : String) :
    Except JsError (Outcome × List Post) :=
  match findPostById store pid with
  | none => .error (.typeError "Cannot read properties of null")
  | some post =>
    if likeCount post uid = 0 then
      .ok (.response ⟨400, .msg "Post has not been liked yet!"⟩, store)
    else
      let removeIndex := jsIndexOf (post.likes.map (fun like => like.user)) uid
      let post' := { post with likes := jsSpliceRemoveOne post.likes removeIndex }
      .ok (.response ⟨200, .likes post'.likes⟩, savePost store post')

/-- PUT api/posts/unlike/:post_id with its catch block. -/
def unlikeRoute (store : List Post) (uid pid : String) :
    Outcome × List Post :=
  match unlikeTry store uid pid with
  | .ok r => r
  | .error _ => (.response ⟨500, .text "Server Error!"⟩, store)

/-- POST api/posts — try block: build the new post from the caller
record (a missing record makes `user.name` throw) with empty likes and
comments per the schema defaults, and save it. -/
def createPostTry (store : List Post) (users : List UserRec)
    (uid text newId : String) : Except JsError (Outcome × List Post) :=
  match findUserById users uid with
  | none => .error (.typeError "Cannot read properties of null")
  | some user =>
    let newPost : Post :=
      { id := newId, user := uid, text := text, name := user.name,
        avatar := user.avatar, likes := [], comments := [] }
    .ok (.response ⟨200, .post newPost⟩, store ++ [newPost])

/-- POST api/posts with its validation check and catch block. -/
def createPostRoute (store : List Post) (users : List UserRec)
    (validationErrs : List String) (uid text newId : String) :
    Outcome × List Post :=
  if validationErrs ≠ [] then
    (.response ⟨400, .errors validationErrs⟩, store)
  else
    match createPostTry store users uid text newId with
    | .ok r => r
    | .error _ => (.response ⟨500, .text "Server Error!"⟩, store)

/-- POST api/posts/comment/:post_id — try block: build the new comment
from the caller record (a missing record makes `user.name` throw),
unshift it onto the comments of the post (a missing post makes
`post.comments` throw) and save. -/
def addCommentTry (store : List Post) (users : List UserRec)
    (uid pid text newCid : String) : Except JsError (Outcome × List Post) :=
  match findUserById users uid with
  | none => .error (.typeError "Cannot read properties of null")
  | some user =>
    match findPostById store pid with
    | none => .error (.typeError "Cannot read properties of null")
    | some post =>
      let newComment : Comment := ⟨newCid, uid, text, user.name, user.avatar⟩
      let post' := { post with comments := newComment :: post.comments }
      .ok (.response ⟨200, .comments post'.comments⟩, savePost store post')

/-- POST api/posts/comment/:post_id with its validation check and catch
block. -/
def addCommentRoute (store : List Post) (users : List UserRec)
    (validationErrs : List String) (uid pid text newCid : String) :
    Outcome × List Post :=
  if validationErrs ≠ [] then
    (.response ⟨400, .errors validationErrs⟩, store)
  else
    match addCommentTry store users uid pid text newCid with
    | .ok r => r
    | .error _ => (.response ⟨500, .text "Server Error!"⟩, store)

/-- The post stores reachable from the empty store through the posts
routes, with arbitrary requests, validation outcomes and user stores at
every step. -/
inductive Reach : List Post → Prop
  | init : Reach []
  | create (s : List Post) (users : List UserRec) (ve : List String)
      (uid text newId : String) :
      Reach s → Reach (createPostRoute s users ve uid text newId).2
  | like (s : List Post) (users : List UserRec) (uid pid : String) :
      Reach s → Reach (likeRoute s users uid pid).2
  | unlike (s : List Post) (uid pid : String) :
      Reach s → Reach (unlikeRoute s uid pid).2
  | comment (s : List Post) (users : List UserRec) (ve : List String)
      (uid pid text newCid : String) :
      Reach s → Reach (addCommentRoute s users ve uid pid text newCid).2
  | removePost (s : List Post) (uid pid : String) :
      Reach s → Reach (deletePostRoute s uid pid).2
  | removeComment (s : List Post) (uid pid cid : String) :
      Reach s → Reach (deleteCommentRoute s uid pid cid).2

/-- Each user id occurs at most once in the likes array of every post
of the store. -/
def LikesAtMostOnce (s : List Post) : Prop :=
  ∀ p ∈ s, ∀ uid, likeCount p uid ≤ 1

/-! ## Concrete fixtures used by witnesses and counterexamples -/

/-- The status of an outcome, when it is a response at all. -/
def outcomeStatus : Outcome → Option Nat
  | .response r => some r.status
  | .crash _ => none

/-- A store with one post owned by A carrying one comment owned by A. -/
def c1Post : Post :=
  { id := "p1", user := "A", text := "hello", name := "Alice", avatar := "av",
    likes := [], comments := [⟨"c1", "A", "first", "Alice", "av"⟩] }

/-- A post owned by A carrying one comment owned by A, used to exercise
the ownership rejections. -/
def ownPost : Post :=
  { id := "p1", user := "A", text := "hi", name := "Alice", avatar := "av",
    likes := [], comments := [⟨"c1", "A", "nice", "Alice", "av"⟩] }

/-- A post owned by A with no comments, for missing-resource cases. -/
def barePost : Post :=
  { id := "p1", user := "A", text := "hi", name := "Alice", avatar := "av",
    likes := [], comments := [] }

/-- A profile of user A with one experience and one education entry. -/
def aliceProfile : Profile :=
  { user := "A",
    experience := [⟨"x1", "Dev", "Acme", "NYC", "2019", "2020", false, "d"⟩],
    education := [⟨"e1", "MIT", "BS", "CS", "2015", "2019", false, "d"⟩] }

/-- The user record of A, for like/unlike witnesses. -/
def aliceUser : UserRec :=
  ⟨"A", "Alice", "a@x.com", "h", "av"⟩

/-- The user record of B, for like/unlike witnesses. -/
def bobUser : UserRec :=
  ⟨"B", "Bob", "b@x.com", "h", "bv"⟩

/-- A post owned by A already liked by B. -/
def likedPost : Post :=
  { id := "p1", user := "A", text := "hi", name := "Alice", avatar := "av",
    likes := [⟨"B", "Bob"⟩], comments := [] }

/-- C5: with the x-auth-token header absent or empty, the middleware
answers 401 with the no-token message, whatever the codec and whatever
the downstream handler, which is never invoked. -/
theorem auth_no_token_denied (verify : String → Except String Decoded)
    (token : Option String) (h : token = none ∨ token = some "") :
    ∀ next, authMiddleware verify token next =
      .response ⟨401, .msg "No token, Authorization denied!"⟩ := by
  intro next
  rcases h with h | h <;> subst h <;> rfl

/-- Witness for C5 at a concrete codec, header and handler. -/
theorem auth_no_token_denied_witness :
    authMiddleware (fun _ => .error "bad signature") none
      (fun i => .response ⟨200, .msg i.id⟩) =
      .response ⟨401, .msg "No token, Authorization denied!"⟩ :=
  auth_no_token_denied _ none (Or.inl rfl) _

/-- C6: on a non-empty token, every codec failure yields 401 with the
same invalid-token body regardless of the failure kind and the handler
is not invoked, while codec success runs the handler on the decoded
user identity. -/
theorem auth_verify_behaviour (verify : String → Except String Decoded)
    (t : String) (ht : ¬ t.isEmpty) :
    (∀ e, verify t = .error e →
      ∀ next, authMiddleware verify (some t) next =
        .response ⟨401, .msg "Token is not valid!"⟩)
    ∧ (∀ d, verify t = .ok d →
      ∀ next, authMiddleware verify (some t) next = next d.user) := by
  constructor
  · intro e he next
    simp [authMiddleware, ht, he]
  · intro d hd next
    simp [authMiddleware, ht, hd]

/-- Witness for C6: a codec failing on one token and succeeding on
another, each exercised at a concrete handler. -/
theorem auth_verify_behaviour_witness :
    (authMiddleware (fun _ => .error "expired") (some "t1")
        (fun i => .response ⟨200, .msg i.id⟩) =
      .response ⟨401, .msg "Token is not valid!"⟩)
    ∧ (authMiddleware (fun _ => .ok ⟨⟨"A"⟩⟩) (some "t2")
        (fun i => .response ⟨200, .msg i.id⟩) =
      .response ⟨200, .msg "A"⟩) := by
  constructor
  · exact (auth_verify_behaviour (fun _ => .error "expired") "t1"
      (by decide)).1 "expired" rfl _
  · exact (auth_verify_behaviour (fun _ => .ok ⟨⟨"A"⟩⟩) "t2"
      (by decide)).2 ⟨⟨"A"⟩⟩ rfl _

/-- C1: evaluated at a comment owned by the requester, the comment-delete
handler hits the TypeError from `comment.idnpm` and answers 500 Server
Error! with the store — and hence the comment — unchanged, instead of the
success response and removal the claim states. -/
theorem owner_comment_delete_answers_500 :
    deleteCommentRoute [c1Post] "A" "p1" "c1" =
      (.response ⟨500, .text "Server Error!"⟩, [c1Post]) := by decide

/-- C3: when the targeted post exists and is owned by someone other than
the requester, post deletion answers 401 User not Authorized! with the
store unchanged; likewise comment deletion when the targeted comment
exists and is owned by someone else. -/
theorem non_owner_delete_rejected (store : List Post) (uid pid cid : String)
    (post : Post) (hfind : findPostById store pid = some post) :
    (post.user ≠ uid →
      deletePostRoute store uid pid =
        (.response ⟨401, .msg "User not Authorized!"⟩, store))
    ∧ (∀ comment, post.comments.find? (fun c => c.id == cid) = some comment →
        comment.user ≠ uid →
        deleteCommentRoute store uid pid cid =
          (.response ⟨401, .msg "User not Authorized!"⟩, store)) := by
  constructor
  · intro hne
    simp [deletePostRoute, deletePostTry, hfind, hne]
  · intro comment hc hne
    simp [deleteCommentRoute, deleteCommentTry, hfind, hc, hne]

/-- Witness for C3: user B attempting to delete a post and a comment
that belong to A. -/
theorem non_owner_delete_rejected_witness :
    (deletePostRoute [ownPost] "B" "p1" =
      (.response ⟨401, .msg "User not Authorized!"⟩, [ownPost]))
    ∧ (deleteCommentRoute [ownPost] "B" "p1" "c1" =
      (.response ⟨401, .msg "User not Authorized!"⟩, [ownPost])) :=
  ⟨(non_owner_delete_rejected [ownPost] "B" "p1" "c1" ownPost rfl).1
      (by decide),
   (non_owner_delete_rejected [ownPost] "B" "p1" "c1" ownPost rfl).2
      ⟨"c1", "A", "nice", "Alice", "av"⟩ rfl (by decide)⟩

/-- C4 counterexample: a comment-delete request naming a post id absent
from the store answers 500 Server Error! (the handler throws on
`post.comments` of null), not the 404 the claim states. -/
theorem missing_post_comment_delete_500 :
    deleteCommentRoute [] "A" "p1" "c1" =
      (.response ⟨500, .text "Server Error!"⟩, [])
    ∧ outcomeStatus (deleteCommentRoute [] "A" "p1" "c1").1 ≠ some 404 := by
  decide

/-- C4 amended: a missing post makes the post-delete route answer 404
Post not Found! and a missing comment makes the comment-delete route
answer 404 Comment does not exist!, in both cases for every requester
identity, with the store unchanged and no ownership comparison reached;
but a comment-delete request naming a missing post answers 500 Server
Error! rather than 404. -/
theorem missing_resource_handling (store : List Post) (uid pid cid : String) :
    (findPostById store pid = none →
      deletePostRoute store uid pid =
        (.response ⟨404, .msg "Post not Found!"⟩, store))
    ∧ (∀ post, findPostById store pid = some post →
        post.comments.find? (fun c => c.id == cid) = none →
        deleteCommentRoute store uid pid cid =
          (.response ⟨404, .msg "Comment does not exist!"⟩, store))
    ∧ (findPostById store pid = none →
        deleteCommentRoute store uid pid cid =
          (.response ⟨500, .text "Server Error!"⟩, store)) := by
  refine ⟨?_, ?_, ?_⟩
  · intro h
    simp [deletePostRoute, deletePostTry, h]
  · intro post hp hc
    simp [deleteCommentRoute, deleteCommentTry, hp, hc]
  · intro h
    simp [deleteCommentRoute, deleteCommentTry, h]

/-- Witness for the amended C4 at concrete stores and ids. -/
theorem missing_resource_handling_witness :
    (deletePostRoute [] "B" "p9" =
      (.response ⟨404, .msg "Post not Found!"⟩, []))
    ∧ (deleteCommentRoute [barePost] "B" "p1" "c9" =
      (.response ⟨404, .msg "Comment does not exist!"⟩, [barePost]))
    ∧ (deleteCommentRoute [barePost] "B" "p9" "c1" =
      (.response ⟨500, .text "Server Error!"⟩, [barePost])) :=
  ⟨(missing_resource_handling [] "B" "p9" "c1").1 rfl,
   (missing_resource_handling [barePost] "B" "p1" "c9").2.1 barePost rfl rfl,
   (missing_resource_handling [barePost] "B" "p9" "c1").2.2 rfl⟩

/-- C2 counterexample: with validation passing, no duplicate email, and
genSalt, hash and save all resolving, a failing token signing makes the
callback rethrow outside the try/catch: the request ends in an uncaught
exception, not in a 500 response. -/
theorem sign_failure_crashes_process :
    (registerRoute [] (fun _ => "g") [] ⟨"Alice", "a@x.com", "secret1"⟩
        ⟨true, true, "h", true, "u1", .err "sign failure"⟩).1 =
      .crash "sign failure"
    ∧ outcomeStatus (registerRoute [] (fun _ => "g") []
        ⟨"Alice", "a@x.com", "secret1"⟩
        ⟨true, true, "h", true, "u1", .err "sign failure"⟩).1 ≠ some 500 := by
  decide

/-- C2 amended: failures of the awaited collaborators (genSalt, hash,
save) inside the try block are caught and answer 500 Server Error, and
a successful sign answers the token; but a signing error surfaces in the
asynchronous callback, whose rethrow the handler catch cannot reach, so
the request ends in an uncaught exception. -/
theorem handler_error_translation (users : List UserRec)
    (gravatar : String → String) (body : RegisterBody) (env : RegisterEnv)
    (hnodup : users.find? (fun w => w.email == body.email) = none) :
    ((¬ env.genSaltOk ∨ ¬ env.hashOk ∨ ¬ env.saveOk) →
      (registerRoute users gravatar [] body env).1 =
        .response ⟨500, .text "Server Error"⟩)
    ∧ (∀ e, env.sign = .err e → env.genSaltOk → env.hashOk → env.saveOk →
      (registerRoute users gravatar [] body env).1 = .crash e)
    ∧ (∀ tok, env.sign = .ok tok → env.genSaltOk → env.hashOk → env.saveOk →
      (registerRoute users gravatar [] body env).1 =
        .response ⟨200, .token tok⟩) := by
  refine ⟨?_, ?_, ?_⟩
  · intro h
    by_cases hg : env.genSaltOk
    · by_cases hh : env.hashOk
      · by_cases hs : env.saveOk
        · rcases h with h | h | h
          · exact absurd hg h
          · exact absurd hh h
          · exact absurd hs h
        · simp [registerRoute, hnodup, hg, hh, hs]
      · simp [registerRoute, hnodup, hg, hh]
    · simp [registerRoute, hnodup, hg]
  · intro e he hg hh hs
    simp [registerRoute, hnodup, hg, hh, hs, he]
  · intro tok htok hg hh hs
    simp [registerRoute, hnodup, hg, hh, hs, htok]

/-- Witness for the amended C2: a failing salt, a failing sign and a
clean run, each at concrete inputs. -/
theorem handler_error_translation_witness :
    ((registerRoute [] (fun _ => "g") [] ⟨"Bob", "b@x.com", "secret1"⟩
        ⟨false, true, "h", true, "u1", .ok "tok"⟩).1 =
      .response ⟨500, .text "Server Error"⟩)
    ∧ ((registerRoute [] (fun _ => "g") [] ⟨"Bob", "b@x.com", "secret1"⟩
        ⟨true, true, "h", true, "u1", .err "boom"⟩).1 = .crash "boom")
    ∧ ((registerRoute [] (fun _ => "g") [] ⟨"Bob", "b@x.com", "secret1"⟩
        ⟨true, true, "h", true, "u1", .ok "tok"⟩).1 =
      .response ⟨200, .token "tok"⟩) :=
  ⟨(handler_error_translation [] (fun _ => "g") ⟨"Bob", "b@x.com", "secret1"⟩
      ⟨false, true, "h", true, "u1", .ok "tok"⟩ rfl).1 (Or.inl (by decide)),
   (handler_error_translation [] (fun _ => "g") ⟨"Bob", "b@x.com", "secret1"⟩
      ⟨true, true, "h", true, "u1", .err "boom"⟩ rfl).2.1 "boom" rfl rfl rfl rfl,
   (handler_error_translation [] (fun _ => "g") ⟨"Bob", "b@x.com", "secret1"⟩
      ⟨true, true, "h", true, "u1", .ok "tok"⟩ rfl).2.2 "tok" rfl rfl rfl rfl⟩

/-- C7: with validation passing and a stored user already holding the
requested email, registration answers 400 User Already exists! and the
user store is unchanged. -/
theorem duplicate_email_rejected (users : List UserRec)
    (gravatar : String → String) (body : RegisterBody) (env : RegisterEnv)
    (u : UserRec)
    (hdup : users.find? (fun w => w.email == body.email) = some u) :
    registerRoute users gravatar [] body env =
      (.response ⟨400, .errors ["User Already exists!"]⟩, users) := by
  simp [registerRoute, hdup]

/-- Witness for C7: re-registering the email of a stored user. -/
theorem duplicate_email_rejected_witness :
    registerRoute [⟨"u1", "Alice", "a@x.com", "h", "g"⟩] (fun _ => "g") []
      ⟨"Bob", "a@x.com", "secret1"⟩ ⟨true, true, "h2", true, "u2", .ok "tok"⟩ =
      (.response ⟨400, .errors ["User Already exists!"]⟩,
        [⟨"u1", "Alice", "a@x.com", "h", "g"⟩]) :=
  duplicate_email_rejected _ _ _ _ ⟨"u1", "Alice", "a@x.com", "h", "g"⟩ rfl

/-! ## Splice and indexOf lemmas -/

/-- Scanning for an absent string yields -1 from any start position. -/
theorem jsIndexOfAux_eq_neg_one (xs : List String) (x : String)
    (h : x ∉ xs) : ∀ i, jsIndexOfAux xs x i = -1 := by
  induction xs with
  | nil => intro i; rfl
  | cons a as ih =>
    intro i
    have ha : ¬ (a == x) = true := by
      simp only [beq_iff_eq]
      intro hax
      exact h (hax ▸ List.mem_cons_self a as)
    have has : x ∉ as := fun hx => h (List.mem_cons_of_mem a hx)
    simp only [jsIndexOfAux, ha, if_false]
    exact ih has (i + 1)

/-- indexOf yields -1 exactly as JS does when the element is absent. -/
theorem jsIndexOf_eq_neg_one (xs : List String) (x : String) (h : x ∉ xs) :
    jsIndexOf xs x = -1 :=
  jsIndexOfAux_eq_neg_one xs x h 0

/-- splice(-1, 1) on a non-empty array drops exactly the last element. -/
theorem jsSplice_neg_one {α : Type} (xs : List α) (h : xs ≠ []) :
    jsSpliceRemoveOne xs (-1) = xs.dropLast := by
  have hlen : 0 < xs.length := List.length_pos.mpr h
  have hcond : ((-1 : Int) < 0) := by decide
  have hact : ((max ((xs.length : Int) + (-1)) 0).toNat) = xs.length - 1 := by
    omega
  simp only [jsSpliceRemoveOne, if_pos hcond, hact]
  have hsucc : xs.length - 1 + 1 = xs.length := by omega
  rw [hsucc, List.drop_length, List.append_nil, List.dropLast_eq_take]

/-- splice at index 0 drops the head. -/
theorem jsSplice_cons_zero {α : Type} (a : α) (l : List α) :
    jsSpliceRemoveOne (a :: l) 0 = l := by
  have hcond : ¬ ((0 : Int) < 0) := by decide
  have hact : ((min (0 : Int) (((a :: l).length : Int))).toNat) = 0 := by
    omega
  simp only [jsSpliceRemoveOne, if_neg hcond, hact]
  rfl

/-- Removal by splice never grows the array: the result is a sublist. -/
theorem jsSplice_sublist {α : Type} (xs : List α) (k : Int) :
    (jsSpliceRemoveOne xs k).Sublist xs := by
  unfold jsSpliceRemoveOne
  have h1 : (xs.drop ((if k < 0 then max ((xs.length : Int) + k) 0
      else min k (xs.length : Int)).toNat + 1)).Sublist
      (xs.drop ((if k < 0 then max ((xs.length : Int) + k) 0
        else min k (xs.length : Int)).toNat)) := by
    rw [← List.tail_drop]
    exact List.tail_sublist _
  have h2 := (List.Sublist.refl (xs.take ((if k < 0 then
      max ((xs.length : Int) + k) 0
      else min k (xs.length : Int)).toNat))).append h1
  simpa [List.take_append_drop] using h2

/-- C8: when the profile of the authenticated user exists and its
experience (education) list is non-empty but contains no entry with the
requested id, the delete-experience (delete-education) route removes the
last entry of the list and answers success with the updated profile. -/
theorem delete_missing_entry_removes_last (profiles : List Profile)
    (uid xid eid : String) (profile : Profile)
    (hf : findProfileByUserId profiles uid = some profile) :
    (profile.experience ≠ [] →
      xid ∉ profile.experience.map (fun xp => xp.id) →
      deleteExperienceRoute profiles uid xid =
        (.response ⟨200,
            .profile { profile with experience := profile.experience.dropLast }⟩,
          saveProfile profiles
            { profile with experience := profile.experience.dropLast }))
    ∧ (profile.education ≠ [] →
      eid ∉ profile.education.map (fun ed => ed.id) →
      deleteEducationRoute profiles uid eid =
        (.response ⟨200,
            .profile { profile with education := profile.education.dropLast }⟩,
          saveProfile profiles
            { profile with education := profile.education.dropLast })) := by
  constructor
  · intro hne hnm
    have hidx := jsIndexOf_eq_neg_one _ _ hnm
    have hmapne : profile.experience.map (fun xp => xp.id) ≠ [] := by
      simpa using hne
    simp only [deleteExperienceRoute, hf, hidx]
    rw [jsSplice_neg_one _ hne]
  · intro hne hnm
    have hidx := jsIndexOf_eq_neg_one _ _ hnm
    simp only [deleteEducationRoute, hf, hidx]
    rw [jsSplice_neg_one _ hne]

/-- Witness for C8: deleting experience and education ids that are not
present removes the single (hence last) entry of each list. -/
theorem delete_missing_entry_removes_last_witness :
    (deleteExperienceRoute [aliceProfile] "A" "nope" =
      (.response ⟨200, .profile { aliceProfile with experience := [] }⟩,
        [{ aliceProfile with experience := [] }]))
    ∧ (deleteEducationRoute [aliceProfile] "A" "nope" =
      (.response ⟨200, .profile { aliceProfile with education := [] }⟩,
        [{ aliceProfile with education := [] }])) := by
  constructor
  · have h := (delete_missing_entry_removes_last [aliceProfile] "A" "nope"
      "nope" aliceProfile rfl).1 (by decide) (by decide)
    simpa [saveProfile, aliceProfile] using h
  · have h := (delete_missing_entry_removes_last [aliceProfile] "A" "nope"
      "nope" aliceProfile rfl).2 (by decide) (by decide)
    simpa [saveProfile, aliceProfile] using h

/-! ## Like/unlike lemmas -/

/-- A member of the store after a save is the saved post or an original
member. -/
theorem mem_savePost {s : List Post} {p q : Post} (h : q ∈ savePost s p) :
    q = p ∨ q ∈ s := by
  unfold savePost at h
  rcases List.mem_map.mp h with ⟨r, hr, hrq⟩
  by_cases hid : (r.id == p.id)
  · left
    rw [← hrq]
    simp [hid]
  · right
    rw [← hrq]
    simp only [hid, if_false, Bool.false_eq_true]
    simpa [hid] using hr

/-- Unshifting a like changes the count of its user by one and no
other count. -/
theorem likeCount_cons (post : Post) (uid nm u : String) :
    likeCount { post with likes := ⟨uid, nm⟩ :: post.likes } u =
      (if uid == u then 1 else 0) + likeCount post u := by
  unfold likeCount
  by_cases h : (uid == u)
  · simp [List.filter_cons, h]
    omega
  · simp [List.filter_cons, h]

/-- Splicing likes never increases any like count. -/
theorem likeCount_splice_le (post : Post) (k : Int) (u : String) :
    likeCount { post with likes := jsSpliceRemoveOne post.likes k } u ≤
      likeCount post u := by
  unfold likeCount
  exact ((jsSplice_sublist post.likes k).filter _).length_le

/-- Like counts ignore the comments of the post. -/
theorem likeCount_set_comments (post : Post) (cs : List Comment)
    (u : String) : likeCount { post with comments := cs } u =
      likeCount post u := rfl

/-- The comment-delete route leaves the store unchanged on every path:
the error paths answer before saving, and the owner path throws on
`comment.idnpm` before saving. -/
theorem deleteCommentRoute_snd (s : List Post) (uid pid cid : String) :
    (deleteCommentRoute s uid pid cid).2 = s := by
  cases hf : findPostById s pid with
  | none => simp [deleteCommentRoute, deleteCommentTry, hf]
  | some post =>
    cases hc : post.comments.find? (fun c => c.id == cid) with
    | none => simp [deleteCommentRoute, deleteCommentTry, hf, hc]
    | some comment =>
      by_cases hown : comment.user ≠ uid
      · simp [deleteCommentRoute, deleteCommentTry, hf, hc, hown]
      · have howneq : comment.user = uid := not_not.mp hown
        have hmem := List.mem_of_find?_eq_some hc
        cases hcm : post.comments with
        | nil =>
          rw [hcm] at hmem
          simp at hmem
        | cons c rest =>
          have hfind : (c :: rest).find? (fun cm => cm.id == cid) =
              some comment := by
            rw [← hcm]
            exact hc
          simp [deleteCommentRoute, deleteCommentTry, hf, hcm, hfind, howneq,
            mapIdnpmToString, jsToString, Comment.idnpm]

/-- Saving a post that keeps the id of the post found under `pid`
makes the lookup of `pid` return the saved post. -/
theorem findPostById_savePost (s : List Post) (pid : String) (post p' : Post)
    (hid : p'.id = post.id) :
    findPostById s pid = some post →
    findPostById (savePost s p') pid = some p' := by
  induction s with
  | nil =>
    intro hf
    simp [findPostById] at hf
  | cons a as ih =>
    intro hf
    have hf0 : List.find? (fun p => p.id == pid) (a :: as) = some post := hf
    have hpid : post.id = pid := by
      have h := List.find?_some hf0
      simpa using h
    by_cases ha : a.id = pid
    · have hab : (a.id == pid) = true := beq_iff_eq.mpr ha
      have hpost : a = post := by
        simp only [List.find?_cons, hab] at hf0
        exact Option.some.inj hf0
      have h1 : (a.id == p'.id) = true := by
        rw [beq_iff_eq, hid, ← hpost]
      have h2 : (p'.id == pid) = true := by
        rw [beq_iff_eq, hid, hpid]
      show List.find? (fun p => p.id == pid)
          (List.map (fun q => if q.id == p'.id then p' else q) (a :: as)) =
          some p'
      rw [List.map_cons, List.find?_cons]
      have hhead : (if a.id == p'.id then p' else a) = p' := by
        rw [h1]
        rfl
      rw [hhead]
      simp only [h2]
    · have hab : (a.id == pid) = false := by
        simpa using ha
      have hf' : findPostById as pid = some post := by
        have h : List.find? (fun p => p.id == pid) as = some post := by
          simpa [List.find?_cons, hab] using hf0
        exact h
      have h1 : (a.id == p'.id) = false := by
        simp only [beq_eq_false_iff_ne, ne_eq]
        rw [hid, hpid]
        exact ha
      have h3 : List.find? (fun p => p.id == pid)
          (List.map (fun q => if q.id == p'.id then p' else q) as) =
          some p' := ih hf'
      show List.find? (fun p => p.id == pid)
          (List.map (fun q => if q.id == p'.id then p' else q) (a :: as)) =
          some p'
      rw [List.map_cons, List.find?_cons]
      have hhead : (if a.id == p'.id then p' else a) = a := by
        rw [h1]
        rfl
      rw [hhead]
      simp only [hab]
      exact h3

/-- Creating a post preserves the at-most-one-like invariant: the new
post starts with no likes. -/
theorem likesAtMostOnce_create (s : List Post) (users : List UserRec)
    (ve : List String) (uid text newId : String) (h : LikesAtMostOnce s) :
    LikesAtMostOnce (createPostRoute s users ve uid text newId).2 := by
  by_cases hve : ve = []
  · subst hve
    cases hu : findUserById users uid with
    | none => simpa [createPostRoute, createPostTry, hu] using h
    | some user =>
      have hstore : (createPostRoute s users [] uid text newId).2 =
          s ++ [{ id := newId, user := uid, text := text, name := user.name,
                  avatar := user.avatar, likes := [], comments := [] }] := by
        simp [createPostRoute, createPostTry, hu]
      rw [hstore]
      intro p hp u
      rcases List.mem_append.mp hp with hp | hp
      · exact h p hp u
      · have hpe : p = { id := newId, user := uid, text := text,
                         name := user.name, avatar := user.avatar,
                         likes := [], comments := [] } := by
          simpa using hp
        subst hpe
        simp [likeCount]
  · simpa [createPostRoute, hve] using h

/-- Liking preserves the at-most-one-like invariant: the route refuses
a second like by the same user before unshifting. -/
theorem likesAtMostOnce_like (s : List Post) (users : List UserRec)
    (uid pid : String) (h : LikesAtMostOnce s) :
    LikesAtMostOnce (likeRoute s users uid pid).2 := by
  cases hp : findPostById s pid with
  | none => simpa [likeRoute, likeTry, hp] using h
  | some post =>
    by_cases hliked : 0 < likeCount post uid
    · simpa [likeRoute, likeTry, hp, hliked] using h
    · cases hu : findUserById users uid with
      | none => simpa [likeRoute, likeTry, hp, hliked, hu] using h
      | some user =>
        have hstore : (likeRoute s users uid pid).2 =
            savePost s { post with likes := ⟨uid, user.name⟩ :: post.likes } := by
          simp [likeRoute, likeTry, hp, hliked, hu]
        rw [hstore]
        intro p hmem u
        rcases mem_savePost hmem with rfl | hmem
        · rw [likeCount_cons]
          have hpost := h post (List.mem_of_find?_eq_some hp) u
          by_cases hu2 : (uid == u)
          · have h0 : likeCount post uid = 0 := Nat.eq_zero_of_not_pos hliked
            have h0u : likeCount post u = 0 := by
              rw [← beq_iff_eq.mp hu2]
              exact h0
            simp [hu2, h0u]
          · simpa [hu2] using hpost
        · exact h p hmem u

/-- Unliking preserves the at-most-one-like invariant: splicing only
removes likes. -/
theorem likesAtMostOnce_unlike (s : List Post) (uid pid : String)
    (h : LikesAtMostOnce s) : LikesAtMostOnce (unlikeRoute s uid pid).2 := by
  cases hp : findPostById s pid with
  | none => simpa [unlikeRoute, unlikeTry, hp] using h
  | some post =>
    by_cases h0 : likeCount post uid = 0
    · simpa [unlikeRoute, unlikeTry, hp, h0] using h
    · have hstore : (unlikeRoute s uid pid).2 =
          savePost s { post with
                       likes := jsSpliceRemoveOne post.likes
                         (jsIndexOf (post.likes.map (fun like => like.user))
                           uid) } := by
        simp [unlikeRoute, unlikeTry, hp, h0]
      rw [hstore]
      intro p hmem u
      rcases mem_savePost hmem with rfl | hmem
      · exact le_trans (likeCount_splice_le post _ u)
          (h post (List.mem_of_find?_eq_some hp) u)
      · exact h p hmem u

/-- Commenting preserves the at-most-one-like invariant: likes are
untouched. -/
theorem likesAtMostOnce_comment (s : List Post) (users : List UserRec)
    (ve : List String) (uid pid text newCid : String)
    (h : LikesAtMostOnce s) :
    LikesAtMostOnce (addCommentRoute s users ve uid pid text newCid).2 := by
  by_cases hve : ve = []
  · subst hve
    cases hu : findUserById users uid with
    | none => simpa [addCommentRoute, addCommentTry, hu] using h
    | some user =>
      cases hp : findPostById s pid with
      | none => simpa [addCommentRoute, addCommentTry, hu, hp] using h
      | some post =>
        have hstore : (addCommentRoute s users [] uid pid text newCid).2 =
            savePost s { post with comments :=
              ⟨newCid, uid, text, user.name, user.avatar⟩ :: post.comments } := by
          simp [addCommentRoute, addCommentTry, hu, hp]
        rw [hstore]
        intro p hmem u
        rcases mem_savePost hmem with rfl | hmem
        · rw [likeCount_set_comments]
          exact h post (List.mem_of_find?_eq_some hp) u
        · exact h p hmem u
  · simpa [addCommentRoute, hve] using h

/-- Deleting a post preserves the at-most-one-like invariant: the store
only shrinks. -/
theorem likesAtMostOnce_deletePost (s : List Post) (uid pid : String)
    (h : LikesAtMostOnce s) :
    LikesAtMostOnce (deletePostRoute s uid pid).2 := by
  cases hp : findPostById s pid with
  | none => simpa [deletePostRoute, deletePostTry, hp] using h
  | some post =>
    by_cases hown : post.user ≠ uid
    · simpa [deletePostRoute, deletePostTry, hp, hown] using h
    · have hstore : (deletePostRoute s uid pid).2 =
          s.filter (fun q => !(q.id == post.id)) := by
        simp [deletePostRoute, deletePostTry, hp, hown]
      rw [hstore]
      intro p hmem u
      exact h p (List.mem_filter.mp hmem).1 u

/-- C9: every reachable store keeps each like list duplicate-free per
user; a like request on an already-liked post answers 400 Post already
liked! with the store unchanged; and a like request on a not-yet-liked
post unshifts exactly one entry for the caller at the front of the
likes. -/
theorem like_at_most_once :
    (∀ s, Reach s → LikesAtMostOnce s)
    ∧ (∀ s users uid pid post, findPostById s pid = some post →
        0 < likeCount post uid →
        likeRoute s users uid pid =
          (.response ⟨400, .msg "Post already liked!"⟩, s))
    ∧ (∀ s users uid pid post user, findPostById s pid = some post →
        likeCount post uid = 0 → findUserById users uid = some user →
        likeRoute s users uid pid =
          (.response ⟨200, .likes (⟨uid, user.name⟩ :: post.likes)⟩,
            savePost s { post with likes := ⟨uid, user.name⟩ :: post.likes })) := by
  refine ⟨?_, ?_, ?_⟩
  · intro s hs
    induction hs with
    | init =>
      intro p hp u
      simp at hp
    | create s users ve uid text newId _ ih =>
      exact likesAtMostOnce_create s users ve uid text newId ih
    | like s users uid pid _ ih =>
      exact likesAtMostOnce_like s users uid pid ih
    | unlike s uid pid _ ih =>
      exact likesAtMostOnce_unlike s uid pid ih
    | comment s users ve uid pid text newCid _ ih =>
      exact likesAtMostOnce_comment s users ve uid pid text newCid ih
    | removePost s uid pid _ ih =>
      exact likesAtMostOnce_deletePost s uid pid ih
    | removeComment s uid pid cid _ ih =>
      rw [deleteCommentRoute_snd]
      exact ih
  · intro s users uid pid post hp hl
    simp [likeRoute, likeTry, hp, hl]
  · intro s users uid pid post user hp h0 hu
    have hnot : ¬ 0 < likeCount post uid := by omega
    simp [likeRoute, likeTry, hp, hnot, hu]

/-- Witness for C9: the invariant read off a store reached by create
then like, the already-liked rejection, and a first like unshifted at
the front, all at concrete inputs. -/
theorem like_at_most_once_witness :
    (likeCount likedPost "B" ≤ 1)
    ∧ (likeRoute [likedPost] [aliceUser, bobUser] "B" "p1" =
        (.response ⟨400, .msg "Post already liked!"⟩, [likedPost]))
    ∧ (likeRoute [barePost] [aliceUser, bobUser] "B" "p1" =
        (.response ⟨200, .likes [⟨"B", "Bob"⟩]⟩,
          savePost [barePost] { barePost with likes := [⟨"B", "Bob"⟩] })) := by
  have h1 : Reach [barePost] := by
    have h := Reach.create [] [aliceUser] [] "A" "hi" "p1" Reach.init
    have he : (createPostRoute [] [aliceUser] [] "A" "hi" "p1").2 =
        [barePost] := by decide
    rwa [he] at h
  have h2 : Reach [likedPost] := by
    have h := Reach.like [barePost] [bobUser] "B" "p1" h1
    have he : (likeRoute [barePost] [bobUser] "B" "p1").2 = [likedPost] := by
      decide
    rwa [he] at h
  refine ⟨?_, ?_, ?_⟩
  · exact like_at_most_once.1 [likedPost] h2 likedPost (by simp) "B"
  · exact like_at_most_once.2.1 [likedPost] [aliceUser, bobUser] "B" "p1"
      likedPost rfl (by decide)
  · exact like_at_most_once.2.2 [barePost] [aliceUser, bobUser] "B" "p1"
      barePost bobUser rfl (by decide) rfl

/-- C10: liking a post not yet liked by the caller and then unliking it,
with no step in between, restores the likes list of that post to its
original value. -/
theorem like_then_unlike_restores (s : List Post) (users : List UserRec)
    (uid pid : String) (post : Post) (user : UserRec)
    (hp : findPostById s pid = some post)
    (hu : findUserById users uid = some user)
    (h0 : likeCount post uid = 0) :
    ∃ p₂, findPostById (unlikeRoute (likeRoute s users uid pid).2 uid pid).2
        pid = some p₂ ∧ p₂.likes = post.likes := by
  have hnot : ¬ 0 < likeCount post uid := by omega
  have hlike : (likeRoute s users uid pid).2 =
      savePost s { post with likes := ⟨uid, user.name⟩ :: post.likes } := by
    simp [likeRoute, likeTry, hp, hnot, hu]
  have hf1 : findPostById (likeRoute s users uid pid).2 pid =
      some { post with likes := ⟨uid, user.name⟩ :: post.likes } := by
    rw [hlike]
    exact findPostById_savePost s pid post _ rfl hp
  have hc1 : likeCount { post with likes := ⟨uid, user.name⟩ :: post.likes }
      uid = 1 := by
    rw [likeCount_cons]
    simp [h0]
  have hidx : jsIndexOf (uid :: post.likes.map (fun like => like.user))
      uid = 0 := by
    simp [jsIndexOf, jsIndexOfAux]
  have hsplice : jsSpliceRemoveOne
      ((⟨uid, user.name⟩ : Like) :: post.likes) 0 = post.likes :=
    jsSplice_cons_zero _ _
  have hunlike : (unlikeRoute (likeRoute s users uid pid).2 uid pid).2 =
      savePost (likeRoute s users uid pid).2
        { post with likes := post.likes } := by
    simp [unlikeRoute, unlikeTry, hf1, hc1]
    rw [hidx, hsplice]
  refine ⟨{ post with likes := post.likes }, ?_, rfl⟩
  rw [hunlike]
  exact findPostById_savePost _ pid
    { post with likes := ⟨uid, user.name⟩ :: post.likes } _ rfl hf1

/-- Witness for C10: user B likes then unlikes the A-owned post with
empty likes; the final stored likes are the original empty list. -/
theorem like_then_unlike_restores_witness :
    ∃ p₂, findPostById
        (unlikeRoute (likeRoute [barePost] [bobUser] "B" "p1").2 "B" "p1").2
        "p1" = some p₂ ∧ p₂.likes = barePost.likes :=
  like_then_unlike_restores [barePost] [bobUser] "B" "p1" barePost bobUser
    rfl rfl rfl

end Devconnector
